import Mathlib

/-!
Verification of `expand_ground_truth_to_15.py`: the script loads a ground-truth
dataset (JSON), appends four literal test cases, overwrites the dataset-level
metadata (`total_cases`, `pattern_distribution`, `validation_metrics`, `notes`)
with literal values, and writes the result back out.

The dataset is modelled at the persisted-layout schema: an ordered list of
test cases, the four metadata fields, and the remaining top-level keys kept
as a raw association list.  The script body between the `json.load` and the
`json.dump` is embedded as the pure function `expand`.
-/

/-- JSON values, used for the loosely-typed parts of a record and for
modelling serialization of a test case. -/
inductive Json where
  | null : Json
  | bool : Bool → Json
  | num : ℚ → Json
  | str : String → Json
  | arr : List Json → Json
  | obj : List (String × Json) → Json

/-- The `expected_links` record of a test case: three ordered sequences of
identifiers. -/
structure ExpectedLinks where
  fixed_by_commits : List String
  associated_prs : List Nat
  associated_issues : List Nat

/-- The `github_verification` provenance record of a test case.  The `note`
key is present on some cases only. -/
structure GithubVerification where
  issue_state : String
  pr_state : Option String
  verified_manually : Bool
  verified_date : String
  note : Option String

/-- One ground-truth test case, with exactly the top-level keys the script's
literal records carry. -/
structure TestCase where
  issue_number : Nat
  title : String
  issue_url : String
  expected_links : ExpectedLinks
  linking_patterns : List String
  primary_evidence : List (String × Json)
  link_quality : String
  difficulty : String
  notes : String
  expected_confidence : Option ℚ
  should_detect : Bool
  github_verification : GithubVerification

/-- The `validation_metrics` record of the dataset. -/
structure ValidationMetrics where
  expected_true_positives : Nat
  expected_true_negatives : Nat
  expected_false_negatives : Nat
  expected_false_positives : Nat
  target_precision : ℚ
  target_recall : ℚ
  target_f1 : ℚ

/-- The loaded dataset: the five keys the script touches, plus every other
top-level key of the JSON object, kept as a raw association list. -/
structure Dataset where
  test_cases : List TestCase
  total_cases : Nat
  pattern_distribution : List (String × Nat)
  validation_metrics : ValidationMetrics
  notes : String
  extra : List (String × Json)

/-- Literal test case for issue #111 (lines 12-40 of the script). -/
def case111 : TestCase :=
  { issue_number := 111
    title := "[BUG] CONTRIBUTING guide link in readme broken"
    issue_url := "https://github.com/omnara-ai/omnara/issues/111"
    expected_links :=
      { fixed_by_commits := []
        associated_prs := [112]
        associated_issues := [] }
    linking_patterns := ["explicit"]
    primary_evidence :=
      [("pr_body_contains", Json.str "Address #111"),
       ("reference_type", Json.str "address"),
       ("explicit", Json.bool true),
       ("issue_closed_at", Json.str "2025-08-14T00:00:00Z"),
       ("pr_merged_at", Json.str "2025-08-14T00:00:00Z")]
    link_quality := "high"
    difficulty := "easy"
    notes := "PR #112 explicitly states \x27Address #111\x27. Added CONTRIBUTING.md file to fix broken README link."
    expected_confidence := some (75 / 100)
    should_detect := true
    github_verification :=
      { issue_state := "closed"
        pr_state := some "merged"
        verified_manually := true
        verified_date := "2025-11-02"
        note := none } }

/-- Literal test case for issue #62 (lines 41-69 of the script). -/
def case62 : TestCase :=
  { issue_number := 62
    title := "[FEATURE] Other modes of Claude Code"
    issue_url := "https://github.com/omnara-ai/omnara/issues/62"
    expected_links :=
      { fixed_by_commits := []
        associated_prs := [133]
        associated_issues := [] }
    linking_patterns := ["explicit"]
    primary_evidence :=
      [("pr_mentioned_in", Json.str "ksarangmath mentioned this pull request Aug 17, 2025 [FEATURE] Other modes of Claude Code #62"),
       ("reference_type", Json.str "mentioned"),
       ("explicit", Json.bool true),
       ("issue_closed_at", Json.str "2025-08-17T00:00:00Z"),
       ("pr_merged_at", Json.str "2025-08-17T00:00:00Z")]
    link_quality := "high"
    difficulty := "easy"
    notes := "PR #133 mentioned Issue #62. Implemented --permission-mode and --dangerously-skip-permissions flags for Claude operational modes."
    expected_confidence := some (75 / 100)
    should_detect := true
    github_verification :=
      { issue_state := "closed"
        pr_state := some "merged"
        verified_manually := true
        verified_date := "2025-11-02"
        note := none } }

/-- Literal test case for issue #164 (lines 70-97 of the script). -/
def case164 : TestCase :=
  { issue_number := 164
    title := "[FEATURE] codex cli integration"
    issue_url := "https://github.com/omnara-ai/omnara/issues/164"
    expected_links :=
      { fixed_by_commits := []
        associated_prs := []
        associated_issues := [] }
    linking_patterns := ["temporal"]
    primary_evidence :=
      [("temporal_correlation", Json.bool true),
       ("note", Json.str "Database shows 6 PRs via temporal correlation, but no explicit references found on GitHub. Complex feature implemented incrementally."),
       ("issue_closed_at", Json.str "2025-09-03T00:00:00Z")]
    link_quality := "medium"
    difficulty := "hard"
    notes := "Complex multi-PR feature. Database shows 6 temporal PR matches. Feature request for Codex CLI integration implemented incrementally. Test case for multi-PR scenarios."
    expected_confidence := some (65 / 100)
    should_detect := true
    github_verification :=
      { issue_state := "closed"
        pr_state := none
        verified_manually := true
        verified_date := "2025-11-02"
        note := some "No explicit PRs mentioned on issue page, relying on temporal correlation" } }

/-- Literal test case for issue #206 (lines 98-125 of the script), the true
negative: `should_detect` is false and `expected_confidence` is absent. -/
def case206 : TestCase :=
  { issue_number := 206
    title := "[Proposal] Rename Omnara"
    issue_url := "https://github.com/omnara-ai/omnara/issues/206"
    expected_links :=
      { fixed_by_commits := []
        associated_prs := []
        associated_issues := [] }
    linking_patterns := ["none"]
    primary_evidence :=
      [("issue_state", Json.str "closed"),
       ("close_reason", Json.str "completed"),
       ("proposal_rejected", Json.bool true),
       ("note", Json.str "Proposal rejected due to existing .com domain ownership")]
    link_quality := "n/a"
    difficulty := "easy"
    notes := "True negative - proposal rejected. No PRs created. Closed by original poster after maintainer response. Tests rejection of non-actionable proposals."
    expected_confidence := none
    should_detect := false
    github_verification :=
      { issue_state := "closed"
        pr_state := none
        verified_manually := true
        verified_date := "2025-11-02"
        note := none } }

/-- The `new_cases` list of the script (lines 11-126). -/
def new_cases : List TestCase := [case111, case62, case164, case206]

/-- The body of the script between `json.load` and `json.dump`
(lines 128-150): extend `test_cases` with `new_cases` and overwrite the four
metadata keys with literal values; every other key is left untouched. -/
def expand (data : Dataset) : Dataset :=
  { data with
    test_cases := data.test_cases ++ new_cases
    total_cases := 15
    pattern_distribution :=
      [("explicit", 7), ("temporal", 4), ("true_negative", 3), ("internal_fix", 1)]
    validation_metrics :=
      { expected_true_positives := 11
        expected_true_negatives := 3
        expected_false_negatives := 1
        expected_false_positives := 0
        target_precision := 1
        target_recall := 92 / 100
        target_f1 := 96 / 100 }
    notes := "Expanded to 15 cases for stronger statistical confidence. Added 2 explicit references (#111, #62), 1 complex temporal case (#164), and 1 true negative (#206). Validates both simple and complex linking scenarios." }

/-- The number of cases in a list whose `linking_patterns` contains a tag. -/
def patternCount (tag : String) (cs : List TestCase) : Nat :=
  (cs.filter (fun c => c.linking_patterns.contains tag)).length

/-- The number of cases with `should_detect` true. -/
def posCount (cs : List TestCase) : Nat :=
  (cs.filter (fun c => c.should_detect)).length

/-- The number of cases with `should_detect` false. -/
def negCount (cs : List TestCase) : Nat :=
  (cs.filter (fun c => !c.should_detect)).length

/-- The number of cases carrying a given issue number. -/
def countIssue (n : Nat) (cs : List TestCase) : Nat :=
  (cs.filter (fun c => c.issue_number == n)).length

/-- Precision formula of the spec: `TP / (TP + FP)`. -/
def precisionFormula (tp fp : ℚ) : ℚ := tp / (tp + fp)

/-- Recall formula of the spec: `TP / (TP + FN)`. -/
def recallFormula (tp fn : ℚ) : ℚ := tp / (tp + fn)

/-- F1 formula of the spec: `2 p r / (p + r)`. -/
def f1Formula (p r : ℚ) : ℚ := 2 * p * r / (p + r)

/-- Rounding to two decimal places (round half up). -/
def round2 (q : ℚ) : ℚ := (Int.floor (q * 100 + 1 / 2) : ℚ) / 100

/-- The should-detect invariant of the data model: `should_detect` is false
iff the three link sequences are empty, the confidence is absent, and the
quality is marked not applicable. -/
def invariantSD (c : TestCase) : Prop :=
  c.should_detect = false ↔
    (c.expected_links.fixed_by_commits = [] ∧
     c.expected_links.associated_prs = [] ∧
     c.expected_links.associated_issues = [] ∧
     c.expected_confidence = none ∧
     c.link_quality = "n/a")

instance (c : TestCase) : Decidable (invariantSD c) := by
  unfold invariantSD; infer_instance

/-- Serialization of the `expected_links` record. -/
def serializeLinks (l : ExpectedLinks) : Json :=
  Json.obj
    [("fixed_by_commits", Json.arr (l.fixed_by_commits.map Json.str)),
     ("associated_prs", Json.arr (l.associated_prs.map (fun n => Json.num n))),
     ("associated_issues", Json.arr (l.associated_issues.map (fun n => Json.num n)))]

/-- Serialization of the `github_verification` record. -/
def serializeVerification (g : GithubVerification) : Json :=
  Json.obj
    ([("issue_state", Json.str g.issue_state),
      ("pr_state", match g.pr_state with | none => Json.null | some s => Json.str s),
      ("verified_manually", Json.bool g.verified_manually),
      ("verified_date", Json.str g.verified_date)] ++
     (match g.note with | none => [] | some s => [("note", Json.str s)]))

/-- Serialization of an optional confidence: `None` becomes JSON null. -/
def serializeConfidence : Option ℚ → Json
  | none => Json.null
  | some q => Json.num q

/-- Serialization of one test case, with the keys in the order the script's
literal records carry them. -/
def serializeCase (c : TestCase) : Json :=
  Json.obj
    [("issue_number", Json.num c.issue_number),
     ("title", Json.str c.title),
     ("issue_url", Json.str c.issue_url),
     ("expected_links", serializeLinks c.expected_links),
     ("linking_patterns", Json.arr (c.linking_patterns.map Json.str)),
     ("primary_evidence", Json.obj c.primary_evidence),
     ("link_quality", Json.str c.link_quality),
     ("difficulty", Json.str c.difficulty),
     ("notes", Json.str c.notes),
     ("expected_confidence", serializeConfidence c.expected_confidence),
     ("should_detect", Json.bool c.should_detect),
     ("github_verification", serializeVerification c.github_verification)]

/-- The keys of a serialized JSON object. -/
def objKeys : Json → List String
  | Json.obj fs => fs.map Prod.fst
  | _ => []

/-- Lookup of a key in a serialized JSON object. -/
def objLookup (j : Json) (k : String) : Option Json :=
  match j with
  | Json.obj fs => fs.lookup k
  | _ => none

/-- The field list every serialized test case carries (source order). -/
def caseFieldOrder : List String :=
  ["issue_number", "title", "issue_url", "expected_links", "linking_patterns",
   "primary_evidence", "link_quality", "difficulty", "notes",
   "expected_confidence", "should_detect", "github_verification"]

/-- The TestCase field list in the order the data model section of the spec
lists it, for comparison with the serialized key order. -/
def specCaseFields : List String :=
  ["issue_number", "title", "issue_url", "expected_links", "linking_patterns",
   "primary_evidence", "link_quality", "difficulty", "expected_confidence",
   "should_detect", "notes", "github_verification"]

/-- A dataset with no cases and zeroed metadata, used as a concrete input. -/
def emptyDataset : Dataset :=
  { test_cases := []
    total_cases := 0
    pattern_distribution := []
    validation_metrics :=
      { expected_true_positives := 0
        expected_true_negatives := 0
        expected_false_negatives := 0
        expected_false_positives := 0
        target_precision := 0
        target_recall := 0
        target_f1 := 0 }
    notes := ""
    extra := [] }

/-- A dataset that already contains a case with issue number 111. -/
def dupInput : Dataset := { emptyDataset with test_cases := [case111] }

lemma expand_test_cases (d : Dataset) :
    (expand d).test_cases = d.test_cases ++ new_cases := rfl

lemma patternCount_append (tag : String) (a b : List TestCase) :
    patternCount tag (a ++ b) = patternCount tag a + patternCount tag b := by
  simp [patternCount, List.filter_append]

lemma posCount_append (a b : List TestCase) :
    posCount (a ++ b) = posCount a + posCount b := by
  simp [posCount, List.filter_append]

lemma negCount_append (a b : List TestCase) :
    negCount (a ++ b) = negCount a + negCount b := by
  simp [negCount, List.filter_append]

lemma countIssue_append (n : Nat) (a b : List TestCase) :
    countIssue n (a ++ b) = countIssue n a + countIssue n b := by
  simp [countIssue, List.filter_append]

lemma case206_mem_new : case206 ∈ new_cases := by simp [new_cases]

lemma invariant_new : ∀ c ∈ new_cases, invariantSD c := by decide

/-- C1 counterexample: on an input with no cases, the output's stored
`total_cases` is 15 while the output's `test_cases` has length 4, so the
stored count does not equal the length of the case sequence for every input
dataset. -/
theorem total_cases_not_length_cex :
    (expand emptyDataset).total_cases = 15 ∧
    (expand emptyDataset).test_cases.length = 4 ∧
    (expand emptyDataset).total_cases ≠ (expand emptyDataset).test_cases.length :=
  ⟨rfl, rfl, by decide⟩

/-- C1 (amended): the append sets `total_cases` to the literal 15,
independently of the cases; it equals the length of the output `test_cases`
exactly when the input contained 11 cases. -/
theorem total_cases_constant15 (d : Dataset) :
    (expand d).total_cases = 15 ∧
    ((expand d).total_cases = (expand d).test_cases.length ↔
      d.test_cases.length = 11) := by
  refine ⟨rfl, ?_⟩
  have h15 : (expand d).total_cases = 15 := rfl
  have h4 : new_cases.length = 4 := rfl
  rw [h15, expand_test_cases, List.length_append, h4]
  omega

/-- C1 amended witness at a concrete input with 11 cases. -/
theorem total_cases_constant15_witness :
    (expand { emptyDataset with
      test_cases := List.replicate 11 case111 }).total_cases =
    (expand { emptyDataset with
      test_cases := List.replicate 11 case111 }).test_cases.length :=
  (total_cases_constant15 _).2.mpr (by decide)

/-- C2 counterexample: on an input with no cases, the tag `none` appears in
the output case #206's `linking_patterns`, one output case carries it, yet
the stored `pattern_distribution` has no entry for `none` at all. -/
theorem pattern_distribution_cex :
    "none" ∈ case206.linking_patterns ∧
    case206 ∈ (expand emptyDataset).test_cases ∧
    patternCount "none" (expand emptyDataset).test_cases = 1 ∧
    List.lookup "none" (expand emptyDataset).pattern_distribution = none :=
  ⟨by decide, List.mem_append.mpr (Or.inr case206_mem_new), rfl, rfl⟩

/-- C2 (amended): the append sets `pattern_distribution` to the fixed mapping
explicit 7, temporal 4, true_negative 3, internal_fix 1, independently of the
cases; the tag `none`, which appears in appended case #206, has no entry. -/
theorem pattern_distribution_constant (d : Dataset) :
    (expand d).pattern_distribution =
      [("explicit", 7), ("temporal", 4), ("true_negative", 3), ("internal_fix", 1)] ∧
    List.lookup "none" (expand d).pattern_distribution = none ∧
    "none" ∈ case206.linking_patterns ∧
    case206 ∈ (expand d).test_cases :=
  ⟨rfl, rfl, by decide, List.mem_append.mpr (Or.inr case206_mem_new)⟩

/-- C3 counterexample: the stored `target_recall` of the output is 0.92, which
is not the formula value 11/12, and the stored `target_f1` 0.96 is not the
formula value 22/23, so the formulas do not hold of the stored fields exactly
as stated. -/
theorem metrics_not_exact_cex :
    (expand emptyDataset).validation_metrics.target_recall = 92 / 100 ∧
    (expand emptyDataset).validation_metrics.target_recall ≠ recallFormula 11 1 ∧
    (expand emptyDataset).validation_metrics.target_f1 = 96 / 100 ∧
    (expand emptyDataset).validation_metrics.target_f1 ≠
      f1Formula (precisionFormula 11 0) (recallFormula 11 1) := by
  refine ⟨rfl, ?_, rfl, ?_⟩
  · have h : (expand emptyDataset).validation_metrics.target_recall = 92 / 100 := rfl
    rw [h, recallFormula]; norm_num
  · have h : (expand emptyDataset).validation_metrics.target_f1 = 96 / 100 := rfl
    rw [h, f1Formula, recallFormula, precisionFormula]; norm_num

/-- C3 (amended): with the stored TP=11, FP=0, FN=1, the stored
`target_precision` equals the formula value `TP/(TP+FP) = 1.0` exactly, while
the stored `target_recall` 0.92 and `target_f1` 0.96 are the formula values
`11/12` and `22/23` rounded to two decimal places, not the exact values. -/
theorem metrics_formula_rounded (d : Dataset) :
    (expand d).validation_metrics.expected_true_positives = 11 ∧
    (expand d).validation_metrics.expected_false_positives = 0 ∧
    (expand d).validation_metrics.expected_false_negatives = 1 ∧
    (expand d).validation_metrics.target_precision = precisionFormula 11 0 ∧
    precisionFormula 11 0 = 1 ∧
    recallFormula 11 1 = 11 / 12 ∧
    (expand d).validation_metrics.target_recall = round2 (recallFormula 11 1) ∧
    f1Formula (precisionFormula 11 0) (recallFormula 11 1) = 22 / 23 ∧
    (expand d).validation_metrics.target_f1 =
      round2 (f1Formula (precisionFormula 11 0) (recallFormula 11 1)) := by
  have hp : (expand d).validation_metrics.target_precision = 1 := rfl
  have hr : (expand d).validation_metrics.target_recall = 92 / 100 := rfl
  have hf : (expand d).validation_metrics.target_f1 = 96 / 100 := rfl
  refine ⟨rfl, rfl, rfl, ?_, ?_, ?_, ?_, ?_, ?_⟩
  · rw [hp, precisionFormula]; norm_num
  · rw [precisionFormula]; norm_num
  · rw [recallFormula]; norm_num
  · rw [hr, recallFormula]; norm_num [round2]
  · rw [f1Formula, recallFormula, precisionFormula]; norm_num
  · rw [hf, f1Formula, recallFormula, precisionFormula]; norm_num [round2]

/-- C4 counterexample: on an input with no cases, the output holds 3 cases
with `should_detect` true and 1 with false, while the stored
`expected_true_positives` is 11 and `expected_true_negatives` is 3; the
stored values are also not the input's stored values increased by 3 and 1. -/
theorem expected_counts_cex :
    posCount (expand emptyDataset).test_cases = 3 ∧
    (expand emptyDataset).validation_metrics.expected_true_positives = 11 ∧
    negCount (expand emptyDataset).test_cases = 1 ∧
    (expand emptyDataset).validation_metrics.expected_true_negatives = 3 ∧
    (expand emptyDataset).validation_metrics.expected_true_positives ≠
      emptyDataset.validation_metrics.expected_true_positives + 3 ∧
    (expand emptyDataset).validation_metrics.expected_true_negatives ≠
      emptyDataset.validation_metrics.expected_true_negatives + 1 :=
  ⟨rfl, rfl, rfl, rfl, by decide, by decide⟩

/-- C4 (amended): the append sets `expected_true_positives` to the literal 11
and `expected_true_negatives` to the literal 3, independently of the cases;
the four appended cases do contribute 3 positives and 1 negative, and the
stored values match the case counts, or the input's stored values increased
by 3 and 1, exactly when the input held 8 positives and 2 negatives. -/
theorem expected_counts_constant (d : Dataset) :
    (expand d).validation_metrics.expected_true_positives = 11 ∧
    (expand d).validation_metrics.expected_true_negatives = 3 ∧
    posCount new_cases = 3 ∧
    negCount new_cases = 1 ∧
    ((expand d).validation_metrics.expected_true_positives =
        posCount (expand d).test_cases ↔ posCount d.test_cases = 8) ∧
    ((expand d).validation_metrics.expected_true_negatives =
        negCount (expand d).test_cases ↔ negCount d.test_cases = 2) ∧
    ((expand d).validation_metrics.expected_true_positives =
        d.validation_metrics.expected_true_positives + 3 ↔
      d.validation_metrics.expected_true_positives = 8) ∧
    ((expand d).validation_metrics.expected_true_negatives =
        d.validation_metrics.expected_true_negatives + 1 ↔
      d.validation_metrics.expected_true_negatives = 2) := by
  have htp : (expand d).validation_metrics.expected_true_positives = 11 := rfl
  have htn : (expand d).validation_metrics.expected_true_negatives = 3 := rfl
  have hpos : posCount new_cases = 3 := rfl
  have hneg : negCount new_cases = 1 := rfl
  refine ⟨rfl, rfl, rfl, rfl, ?_, ?_, ?_, ?_⟩
  · rw [htp, expand_test_cases, posCount_append, hpos]; omega
  · rw [htn, expand_test_cases, negCount_append, hneg]; omega
  · rw [htp]; omega
  · rw [htn]; omega

/-- C5 counterexample: on an input that already contains a case with issue
number 111, the append does not fail and does not leave the dataset
unchanged: the colliding case is added anyway, so the output carries two
cases with issue number 111. -/
theorem duplicate_not_rejected_cex :
    countIssue 111 dupInput.test_cases = 1 ∧
    countIssue 111 (expand dupInput).test_cases = 2 ∧
    (expand dupInput).test_cases ≠ dupInput.test_cases := by
  refine ⟨rfl, rfl, fun h => ?_⟩
  have hl := congrArg List.length h
  exact absurd hl (by decide)

/-- C5 (amended): the append never fails and performs no duplicate check: for
every input it extends `test_cases` with the four new cases unconditionally,
so each issue number's multiplicity grows by its multiplicity among the new
cases; in particular a colliding issue number 111 ends up duplicated rather
than rejected. -/
theorem append_unconditional (d : Dataset) :
    (expand d).test_cases = d.test_cases ++ new_cases ∧
    (∀ n, countIssue n (expand d).test_cases =
      countIssue n d.test_cases + countIssue n new_cases) ∧
    countIssue 111 new_cases = 1 := by
  refine ⟨rfl, fun n => ?_, rfl⟩
  rw [expand_test_cases, countIssue_append]

/-- C6 (confirmed): every test case the append admits satisfies the
should-detect biconditional: when every input case satisfies it, every output
case does, and each of the four appended cases #111, #62, #164, #206
satisfies it unconditionally. -/
theorem invariant_preserved (d : Dataset)
    (h : ∀ c ∈ d.test_cases, invariantSD c) :
    (∀ c ∈ (expand d).test_cases, invariantSD c) ∧
    (∀ c ∈ new_cases, invariantSD c) := by
  refine ⟨fun c hc => ?_, invariant_new⟩
  rw [expand_test_cases] at hc
  rcases List.mem_append.mp hc with h1 | h2
  · exact h c h1
  · exact invariant_new c h2

/-- C6 witness at the concrete empty input dataset. -/
theorem invariant_preserved_witness :
    (∀ c ∈ emptyDataset.test_cases, invariantSD c) ∧
    (∀ c ∈ (expand emptyDataset).test_cases, invariantSD c) :=
  ⟨by decide, (invariant_preserved emptyDataset (by decide)).1⟩

/-- C7 (confirmed): every serialized test case carries exactly the twelve
fields of the data model (the serialized key order is a permutation of the
order of the data-model section), an absent `expected_confidence` serializes
as JSON null and a present one does not, and the should-detect-false case
\#206 in the output has `expected_confidence` serialized as null. -/
theorem serialization_fields (d : Dataset) (c : TestCase) :
    objKeys (serializeCase c) = caseFieldOrder ∧
    List.Perm caseFieldOrder specCaseFields ∧
    (objLookup (serializeCase c) "expected_confidence" = some Json.null ↔
      c.expected_confidence = none) ∧
    case206 ∈ (expand d).test_cases ∧
    case206.should_detect = false ∧
    objLookup (serializeCase case206) "expected_confidence" = some Json.null := by
  refine ⟨rfl, by decide, ?_, List.mem_append.mpr (Or.inr case206_mem_new), rfl, rfl⟩
  have e : objLookup (serializeCase c) "expected_confidence" =
      some (serializeConfidence c.expected_confidence) := rfl
  rw [e]
  cases hx : c.expected_confidence with
  | none => simp [serializeConfidence]
  | some q =>
    simp only [serializeConfidence]
    refine ⟨fun hy => ?_, fun hy => ?_⟩
    · exact Json.noConfusion (Option.some.inj hy)
    · exact Option.noConfusion hy

/-- C8 (confirmed): the transformation is deterministic: two runs on the same
loaded input produce identical output data, component for component
(`test_cases`, `total_cases`, `pattern_distribution`, `validation_metrics`,
`notes`), and identical datasets altogether. -/
theorem expand_deterministic (d₁ d₂ : Dataset) (h : d₁ = d₂) :
    (expand d₁).test_cases = (expand d₂).test_cases ∧
    (expand d₁).total_cases = (expand d₂).total_cases ∧
    (expand d₁).pattern_distribution = (expand d₂).pattern_distribution ∧
    (expand d₁).validation_metrics = (expand d₂).validation_metrics ∧
    (expand d₁).notes = (expand d₂).notes ∧
    expand d₁ = expand d₂ := by
  subst h
  exact ⟨rfl, rfl, rfl, rfl, rfl, rfl⟩

/-- C8 witness at the concrete empty input dataset. -/
theorem expand_deterministic_witness :
    emptyDataset = emptyDataset ∧ expand emptyDataset = expand emptyDataset :=
  ⟨rfl, (expand_deterministic emptyDataset emptyDataset rfl).2.2.2.2.2⟩

/-- C9 (confirmed): the written metadata is constant in the input: for every
input dataset the output's `total_cases` is 15, `pattern_distribution` is the
fixed mapping explicit 7, temporal 4, true_negative 3, internal_fix 1,
`validation_metrics` is the fixed record TP=11, TN=3, FN=1, FP=0,
precision=1.0, recall=0.92, f1=0.96, and `notes` is a fixed string. -/
theorem metadata_constant (d : Dataset) :
    (expand d).total_cases = 15 ∧
    (expand d).pattern_distribution =
      [("explicit", 7), ("temporal", 4), ("true_negative", 3), ("internal_fix", 1)] ∧
    (expand d).validation_metrics =
      { expected_true_positives := 11
        expected_true_negatives := 3
        expected_false_negatives := 1
        expected_false_positives := 0
        target_precision := 1
        target_recall := 92 / 100
        target_f1 := 96 / 100 } ∧
    (expand d).notes = "Expanded to 15 cases for stronger statistical confidence. Added 2 explicit references (#111, #62), 1 complex temporal case (#164), and 1 true negative (#206). Validates both simple and complex linking scenarios." :=
  ⟨rfl, rfl, rfl, rfl⟩

/-- C10 (confirmed): the append preserves existing content and touches
nothing else: the output `test_cases` is exactly the input sequence followed
by the four literal cases with issue numbers 111, 62, 164, 206 in that order,
and every top-level key of the input other than the five keys the script
assigns (modelled by the `extra` field) is carried through unchanged. -/
theorem append_frame (d : Dataset) :
    (expand d).test_cases = d.test_cases ++ [case111, case62, case164, case206] ∧
    new_cases.map TestCase.issue_number = [111, 62, 164, 206] ∧
    (expand d).extra = d.extra :=
  ⟨rfl, rfl, rfl⟩
